import Mathlib

/-!
Verification of the analytics aggregation core of the Prontivus backend
(`backend/app/api/endpoints/analytics.py`).

Modelling conventions (shallow embedding):
* Python `datetime` values are modelled by an explicit Gregorian calendar
  structure `Date`/`DateTime` (proleptic, year as `Int`); all datetimes are
  UTC, at one-second granularity (the analytics code zeroes microseconds
  wherever sub-second precision would matter).
* Where the code manipulates raw UTC instants (invoice issue/due dates versus
  "now" in the AR-aging loop) we use integer seconds.
* Python `float` money amounts are modelled by `Rat` (exact arithmetic; the
  claims under scrutiny only involve exact decimal values).
* SQL result sets are modelled as Lean lists of record structures; joins,
  filters and group-bys are written out as list operations following the
  SQLAlchemy statements in the source.
* The ORM model classes (`Invoice`, `Payment`, ... in `app/models/financial.py`)
  are not part of the source tree; the record structures below carry exactly
  the columns the analytics queries touch, with the enumerated statuses
  modelled from the spec (only `CANCELLED` / `COMPLETED` are distinguished).
-/

/-! ## Calendar model -/

/-- Gregorian leap-year test, as Python's `calendar`/`datetime` implement it. -/
def isLeap (y : Int) : Bool :=
  (y % 4 == 0 && y % 100 != 0) || y % 400 == 0

/-- Number of days in a month (month `1`..`12`) of a year with leap flag `l`. -/
def daysInMonth (l : Bool) (m : Nat) : Nat :=
  match m with
  | 1 => 31
  | 2 => if l then 29 else 28
  | 3 => 31
  | 4 => 30
  | 5 => 31
  | 6 => 30
  | 7 => 31
  | 8 => 31
  | 9 => 30
  | 10 => 31
  | 11 => 30
  | 12 => 31
  | _ => 0

/-- A calendar date, mirroring Python's `datetime.date`. -/
structure Date where
  year : Int
  month : Nat
  day : Nat
deriving DecidableEq, Repr

/-- Validity of a month/day pair for a given leap flag. -/
def ValidMD (l : Bool) (m d : Nat) : Prop :=
  1 ≤ m ∧ m ≤ 12 ∧ 1 ≤ d ∧ d ≤ daysInMonth l m

instance (l : Bool) (m d : Nat) : Decidable (ValidMD l m d) := by
  unfold ValidMD; infer_instance

/-- A `Date` is valid when its month/day pair is valid for its year. -/
def Date.Valid (d : Date) : Prop :=
  ValidMD (isLeap d.year) d.month d.day

instance (d : Date) : Decidable d.Valid := by
  unfold Date.Valid; infer_instance

/-- Strict lexicographic order on dates (how Python compares `date`s). -/
def Date.lt (a b : Date) : Prop :=
  a.year < b.year ∨ (a.year = b.year ∧
    (a.month < b.month ∨ (a.month = b.month ∧ a.day < b.day)))

/-- Non-strict lexicographic order on dates. -/
def Date.le (a b : Date) : Prop :=
  Date.lt a b ∨ a = b

instance (a b : Date) : Decidable (Date.lt a b) := by
  unfold Date.lt; infer_instance

instance (a b : Date) : Decidable (Date.le a b) := by
  unfold Date.le; infer_instance

/-- The calendar day before `d` (what `d - timedelta(days=1)` computes). -/
def predDay (d : Date) : Date :=
  if 1 < d.day then ⟨d.year, d.month, d.day - 1⟩
  else if 1 < d.month then
    ⟨d.year, d.month - 1, daysInMonth (isLeap d.year) (d.month - 1)⟩
  else ⟨d.year - 1, 12, 31⟩

/-- The calendar day after `d` (what `d + timedelta(days=1)` computes). -/
def succDay (d : Date) : Date :=
  if d.day < daysInMonth (isLeap d.year) d.month then ⟨d.year, d.month, d.day + 1⟩
  else if d.month < 12 then ⟨d.year, d.month + 1, 1⟩
  else ⟨d.year + 1, 1, 1⟩

/-- A UTC timestamp at one-second granularity, mirroring `datetime.datetime`. -/
structure DateTime where
  date : Date
  hour : Nat
  minute : Nat
  second : Nat
deriving DecidableEq, Repr

/-- Validity of a `DateTime`: valid date and in-range time-of-day fields. -/
def DateTime.Valid (t : DateTime) : Prop :=
  t.date.Valid ∧ t.hour ≤ 23 ∧ t.minute ≤ 59 ∧ t.second ≤ 59

instance (t : DateTime) : Decidable t.Valid := by
  unfold DateTime.Valid; infer_instance

/-- Strict order on datetimes: date first, then time of day. -/
def DateTime.lt (a b : DateTime) : Prop :=
  Date.lt a.date b.date ∨ (a.date = b.date ∧
    (a.hour < b.hour ∨ (a.hour = b.hour ∧
      (a.minute < b.minute ∨ (a.minute = b.minute ∧ a.second < b.second)))))

/-- Non-strict order on datetimes. -/
def DateTime.le (a b : DateTime) : Prop :=
  DateTime.lt a b ∨ a = b

instance (a b : DateTime) : Decidable (DateTime.lt a b) := by
  unfold DateTime.lt; infer_instance

instance (a b : DateTime) : Decidable (DateTime.le a b) := by
  unfold DateTime.le; infer_instance

/-- `t - timedelta(days=k)` for a datetime: shift the date, keep the time. -/
def subDaysDT (k : Nat) (t : DateTime) : DateTime :=
  { t with date := predDay^[k] t.date }

/-- `t - timedelta(seconds=1)` at one-second granularity. -/
def predSecondDT (t : DateTime) : DateTime :=
  if 0 < t.second then { t with second := t.second - 1 }
  else if 0 < t.minute then { t with minute := t.minute - 1, second := 59 }
  else if 0 < t.hour then { t with hour := t.hour - 1, minute := 59, second := 59 }
  else ⟨predDay t.date, 23, 59, 59⟩

/-- `_period_to_dates` from `analytics.py`, with the request's "now" made an
explicit parameter (the code captures `datetime.now(timezone.utc)` once). -/
def periodToDates (now : DateTime) (period : String) : DateTime × DateTime :=
  if period = "last_7_days" then (subDaysDT 7 now, now)
  else if period = "last_30_days" then (subDaysDT 30 now, now)
  else if period = "last_3_months" then (subDaysDT 90 now, now)
  else if period = "last_year" then (subDaysDT 365 now, now)
  else if period = "last_month" then
    let firstThisMonth : DateTime := ⟨⟨now.date.year, now.date.month, 1⟩, 0, 0, 0⟩
    let lastMonthEnd := predSecondDT firstThisMonth
    let lastMonthStart : DateTime :=
      ⟨⟨lastMonthEnd.date.year, lastMonthEnd.date.month, 1⟩, 0, 0, 0⟩
    (lastMonthStart, lastMonthEnd)
  else (subDaysDT 30 now, now)

/-! ## Order lemmas for the calendar model -/

theorem date_lt_trans {a b c : Date} (h1 : Date.lt a b) (h2 : Date.lt b c) :
    Date.lt a c := by
  unfold Date.lt at *
  omega

theorem date_le_trans {a b c : Date} (h1 : Date.le a b) (h2 : Date.le b c) :
    Date.le a c := by
  rcases h1 with h1 | rfl
  · rcases h2 with h2 | rfl
    · exact Or.inl (date_lt_trans h1 h2)
    · exact Or.inl h1
  · exact h2

theorem predDay_lt (d : Date) : Date.lt (predDay d) d := by
  unfold predDay Date.lt
  split
  · dsimp only
    omega
  · split <;> dsimp only <;> omega

theorem iterate_predDay_le (k : Nat) (d : Date) : Date.le (predDay^[k] d) d := by
  induction k with
  | zero => exact Or.inr rfl
  | succ n ih =>
    rw [Function.iterate_succ_apply']
    exact date_le_trans (Or.inl (predDay_lt _)) ih

theorem subDaysDT_le (k : Nat) (t : DateTime) : DateTime.le (subDaysDT k t) t := by
  rcases iterate_predDay_le k t.date with h | h
  · exact Or.inl (Or.inl h)
  · right
    unfold subDaysDT
    cases t
    simp_all

/-! ## C6: the period resolver -/

/-- Spec-side definition ("first instant of the previous calendar month"),
written from the claim's words. -/
def firstOfPrevMonth (now : DateTime) : DateTime :=
  if now.date.month = 1 then ⟨⟨now.date.year - 1, 12, 1⟩, 0, 0, 0⟩
  else ⟨⟨now.date.year, now.date.month - 1, 1⟩, 0, 0, 0⟩

/-- Spec-side definition ("first instant of the current calendar month"). -/
def firstOfCurrMonth (now : DateTime) : DateTime :=
  ⟨⟨now.date.year, now.date.month, 1⟩, 0, 0, 0⟩

theorem daysInMonth_pos : ∀ l : Bool, ∀ m < 13, 1 ≤ m → 1 ≤ daysInMonth l m := by
  decide

theorem lastMonth_eval (now : DateTime) :
    periodToDates now "last_month" =
      (⟨⟨(predDay ⟨now.date.year, now.date.month, 1⟩).year,
         (predDay ⟨now.date.year, now.date.month, 1⟩).month, 1⟩, 0, 0, 0⟩,
       ⟨predDay ⟨now.date.year, now.date.month, 1⟩, 23, 59, 59⟩) := by
  simp [periodToDates, predSecondDT]

theorem predDay_first_eval (Y : Int) (M : Nat) (h1 : 1 ≤ M) (h12 : M ≤ 12) :
    predDay ⟨Y, M, 1⟩ =
      if M = 1 then ⟨Y - 1, 12, 31⟩
      else ⟨Y, M - 1, daysInMonth (isLeap Y) (M - 1)⟩ := by
  unfold predDay
  dsimp only
  split
  · omega
  · split <;> split <;> first | rfl | omega

theorem daysInMonth_le_31 : ∀ l : Bool, ∀ m < 13, daysInMonth l m ≤ 31 := by
  decide

theorem dt_le_end (t : DateTime) (d : Date) (ht : t.Valid) (hd : Date.le t.date d) :
    DateTime.le t ⟨d, 23, 59, 59⟩ := by
  rcases hd with hd | hd
  · exact Or.inl (Or.inl hd)
  · obtain ⟨hv, h23, h59m, h59s⟩ := ht
    by_cases hh : t.hour = 23 ∧ t.minute = 59 ∧ t.second = 59
    · right
      rcases t with ⟨td, th, tm, ts⟩
      simp_all
    · left; right
      refine ⟨hd, ?_⟩
      dsimp only
      omega

theorem date_lt_first_imp_le_pred (td : Date) (Y : Int) (M : Nat)
    (h1 : 1 ≤ M) (h12 : M ≤ 12) (htv : td.Valid)
    (hd : Date.lt td ⟨Y, M, 1⟩) :
    Date.le td (if M = 1 then ⟨Y - 1, 12, 31⟩
                else ⟨Y, M - 1, daysInMonth (isLeap Y) (M - 1)⟩) := by
  rcases td with ⟨ty, tm, tdy⟩
  simp only [Date.Valid, ValidMD] at htv
  obtain ⟨hm1, hm12, hd1, hdim⟩ := htv
  have h31 : daysInMonth (isLeap ty) tm ≤ 31 := daysInMonth_le_31 _ _ (by omega)
  simp only [Date.lt] at hd
  split
  · -- M = 1 : previous month is December of year Y - 1
    simp only [Date.le, Date.lt, Date.mk.injEq]
    omega
  · -- M ≥ 2 : previous month is M - 1 of year Y
    simp only [Date.le, Date.lt, Date.mk.injEq]
    rcases eq_or_ne tm (M - 1) with h2 | h2
    · subst h2
      rcases eq_or_ne ty Y with h3 | h3
      · subst h3
        omega
      · omega
    · omega

theorem between_same_month (t : DateTime) (py : Int) (pm d1 dpm : Nat)
    (h1 : DateTime.le ⟨⟨py, pm, d1⟩, 0, 0, 0⟩ t)
    (h2 : DateTime.le t ⟨⟨py, pm, dpm⟩, 23, 59, 59⟩) :
    t.date.year = py ∧ t.date.month = pm := by
  rcases t with ⟨⟨ty, tm, td⟩, th, tmin, ts⟩
  unfold DateTime.le DateTime.lt Date.lt at h1 h2
  simp only [DateTime.mk.injEq, Date.mk.injEq] at h1 h2
  dsimp only at *
  omega

theorem first_le_last_instant (y : Int) (m d : Nat) (hd : 1 ≤ d) :
    DateTime.le ⟨⟨y, m, 1⟩, 0, 0, 0⟩ ⟨⟨y, m, d⟩, 23, 59, 59⟩ := by
  rcases Nat.lt_or_ge 1 d with h | h
  · exact Or.inl (Or.inl (Or.inr ⟨rfl, Or.inr ⟨rfl, h⟩⟩))
  · have h1 : d = 1 := by omega
    subst h1
    exact Or.inl (Or.inr ⟨rfl, Or.inl (by norm_num)⟩)

theorem lastMonth_pair (now : DateTime) (h1 : 1 ≤ now.date.month)
    (h12 : now.date.month ≤ 12) :
    periodToDates now "last_month" =
      if now.date.month = 1 then
        (⟨⟨now.date.year - 1, 12, 1⟩, 0, 0, 0⟩,
         ⟨⟨now.date.year - 1, 12, 31⟩, 23, 59, 59⟩)
      else
        (⟨⟨now.date.year, now.date.month - 1, 1⟩, 0, 0, 0⟩,
         ⟨⟨now.date.year, now.date.month - 1,
            daysInMonth (isLeap now.date.year) (now.date.month - 1)⟩, 23, 59, 59⟩) := by
  rw [lastMonth_eval, predDay_first_eval _ _ h1 h12]
  split <;> rfl

theorem periodToDates_default (now : DateTime) (period : String)
    (c1 : period ≠ "last_7_days") (c2 : period ≠ "last_30_days")
    (c3 : period ≠ "last_3_months") (c4 : period ≠ "last_year")
    (c5 : period ≠ "last_month") :
    periodToDates now period = (subDaysDT 30 now, now) := by
  simp [periodToDates, c1, c2, c3, c4, c5]

theorem periodToDates_le (now : DateTime) (h : now.Valid) (period : String) :
    DateTime.le (periodToDates now period).1 (periodToDates now period).2 := by
  have hm1 : 1 ≤ now.date.month := h.1.1
  have hm12 : now.date.month ≤ 12 := h.1.2.1
  by_cases c1 : period = "last_7_days"
  · rw [c1]; exact subDaysDT_le 7 now
  by_cases c2 : period = "last_30_days"
  · rw [c2]; exact subDaysDT_le 30 now
  by_cases c3 : period = "last_3_months"
  · rw [c3]; exact subDaysDT_le 90 now
  by_cases c4 : period = "last_year"
  · rw [c4]; exact subDaysDT_le 365 now
  by_cases c5 : period = "last_month"
  · rw [c5, lastMonth_pair now hm1 hm12]
    split_ifs with hM
    · exact first_le_last_instant _ _ _ (by norm_num)
    · exact first_le_last_instant _ _ _ (daysInMonth_pos _ _ (by omega) (by omega))
  · rw [periodToDates_default now period c1 c2 c3 c4 c5]
    exact subDaysDT_le 30 now

/-- C6: for every "now", `_period_to_dates("last_month")` returns an interval
whose start is the first instant of the previous calendar month and whose end
is the last instant before the first of the current month (at the code's
one-second granularity: it is below the first of the current month, and every
valid instant below the first of the current month is ≤ it); the whole interval
lies inside the previous calendar month; and for every period token the
resolved end is ≥ the resolved start. -/
theorem c6_period_resolver (now : DateTime) (h : now.Valid) :
    (periodToDates now "last_month").1 = firstOfPrevMonth now ∧
    DateTime.lt (periodToDates now "last_month").2 (firstOfCurrMonth now) ∧
    (∀ t : DateTime, t.Valid → DateTime.lt t (firstOfCurrMonth now) →
      DateTime.le t (periodToDates now "last_month").2) ∧
    (∀ t : DateTime,
      DateTime.le (periodToDates now "last_month").1 t →
      DateTime.le t (periodToDates now "last_month").2 →
      t.date.year = (firstOfPrevMonth now).date.year ∧
      t.date.month = (firstOfPrevMonth now).date.month) ∧
    (∀ period : String,
      DateTime.le (periodToDates now period).1 (periodToDates now period).2) := by
  have hm1 : 1 ≤ now.date.month := h.1.1
  have hm12 : now.date.month ≤ 12 := h.1.2.1
  refine ⟨?_, ?_, ?_, ?_, periodToDates_le now h⟩
  · rw [lastMonth_pair now hm1 hm12]
    unfold firstOfPrevMonth
    split_ifs <;> rfl
  · rw [lastMonth_pair now hm1 hm12]
    unfold firstOfCurrMonth
    split_ifs with hM
    · refine Or.inl (Or.inl ?_)
      dsimp only
      omega
    · refine Or.inl (Or.inr ⟨rfl, Or.inl ?_⟩)
      dsimp only
      omega
  · intro t htv hlt
    rw [lastMonth_pair now hm1 hm12]
    unfold firstOfCurrMonth at hlt
    rcases hlt with hdlt | ⟨heq, habs⟩
    · have hle := date_lt_first_imp_le_pred t.date now.date.year now.date.month
        hm1 hm12 htv.1 hdlt
      split_ifs at hle ⊢ with hM
      · exact dt_le_end t _ htv hle
      · exact dt_le_end t _ htv hle
    · exfalso
      simp only at habs
      omega
  · intro t hl hr
    rw [lastMonth_pair now hm1 hm12] at hl hr
    unfold firstOfPrevMonth
    split_ifs at hl hr ⊢ with hM
    · exact between_same_month t _ _ _ _ hl hr
    · exact between_same_month t _ _ _ _ hl hr

/-- Witness for `c6_period_resolver` at the concrete instant
2026-10-12 05:30:15 UTC. -/
theorem c6_period_resolver_witness :
    (periodToDates ⟨⟨2026, 10, 12⟩, 5, 30, 15⟩ "last_month").1 =
      firstOfPrevMonth ⟨⟨2026, 10, 12⟩, 5, 30, 15⟩ :=
  (c6_period_resolver ⟨⟨2026, 10, 12⟩, 5, 30, 15⟩ (by decide)).1

/-! ## C5: age computation and age-group bucketing (`_age` and the bucket loop
in `get_clinical_analytics`) -/

/-- Python tuple comparison `(m, d) < (m2, d2)` used inside `_age`. -/
def pyTupleLt (m d m2 d2 : Nat) : Prop :=
  m < m2 ∨ (m = m2 ∧ d < d2)

instance (m d m2 d2 : Nat) : Decidable (pyTupleLt m d m2 d2) := by
  unfold pyTupleLt; infer_instance

/-- `_age` from `get_clinical_analytics`: `today.year - dob.year -
((today.month, today.day) < (dob.month, dob.day))`, `None` for a missing DOB.
"today" is an explicit parameter (the code reads the current UTC date). -/
def ageOf (today : Date) (dob : Option Date) : Option Int :=
  match dob with
  | none => none
  | some b =>
    some (today.year - b.year -
      (if pyTupleLt today.month today.day b.month b.day then 1 else 0))

/-- The four age-group counters of `get_clinical_analytics`. -/
structure AgeBuckets where
  b0_17 : Nat
  b18_35 : Nat
  b36_55 : Nat
  b56plus : Nat
deriving DecidableEq, Repr

/-- One iteration of the age-bucketing loop: skip a missing age, else place
the patient row in the single bucket its age selects. -/
def addAge (b : AgeBuckets) (a : Option Int) : AgeBuckets :=
  match a with
  | none => b
  | some age =>
    if age ≤ 17 then { b with b0_17 := b.b0_17 + 1 }
    else if age ≤ 35 then { b with b18_35 := b.b18_35 + 1 }
    else if age ≤ 55 then { b with b36_55 := b.b36_55 + 1 }
    else { b with b56plus := b.b56plus + 1 }

/-- Cumulative days before month `m` in a year with leap flag `l`. -/
def daysBefore (l : Bool) (m : Nat) : Nat :=
  match m with
  | 1 => 0
  | 2 => 31
  | 3 => 59 + (if l then 1 else 0)
  | 4 => 90 + (if l then 1 else 0)
  | 5 => 120 + (if l then 1 else 0)
  | 6 => 151 + (if l then 1 else 0)
  | 7 => 181 + (if l then 1 else 0)
  | 8 => 212 + (if l then 1 else 0)
  | 9 => 243 + (if l then 1 else 0)
  | 10 => 273 + (if l then 1 else 0)
  | 11 => 304 + (if l then 1 else 0)
  | 12 => 334 + (if l then 1 else 0)
  | _ => 400

/-- Ordinal day of the year of `(m, d)` under leap flag `l`. -/
def doy (l : Bool) (m d : Nat) : Nat :=
  daysBefore l m + d

/-- Length of a year with leap flag `l`. -/
def yearLen (l : Bool) : Nat :=
  if l then 366 else 365

theorem daysBefore_step : ∀ l : Bool, ∀ m < 13, ∀ m2 < 13, 1 ≤ m → m < m2 →
    daysBefore l m + daysInMonth l m ≤ daysBefore l m2 := by
  decide

theorem daysBefore_succ_eq : ∀ l : Bool, ∀ m < 12, 1 ≤ m →
    daysBefore l (m + 1) = daysBefore l m + daysInMonth l m := by
  decide

theorem daysBefore_add_dim_le : ∀ l : Bool, ∀ m < 13, 1 ≤ m →
    daysBefore l m + daysInMonth l m ≤ yearLen l := by
  decide

theorem daysBefore_false_le : ∀ m < 13, daysBefore false m ≤ daysBefore true m := by
  decide

theorem daysBefore_true_le : ∀ m < 13, daysBefore true m ≤ daysBefore false m + 1 := by
  decide

theorem daysInMonth_false_le : ∀ m < 13, daysInMonth false m ≤ daysInMonth true m := by
  decide

theorem daysBefore_ge_march : ∀ m < 13, 3 ≤ m → 59 ≤ daysBefore false m := by
  decide

theorem doy_le_yearLen (l : Bool) (m d : Nat) (h : ValidMD l m d) :
    doy l m d ≤ yearLen l := by
  obtain ⟨h1, h2, h3, h4⟩ := h
  have := daysBefore_add_dim_le l m (by omega) h1
  unfold doy
  omega

theorem doy_lt_iff (l : Bool) (m d m2 d2 : Nat)
    (h1 : ValidMD l m d) (h2 : ValidMD l m2 d2) :
    pyTupleLt m d m2 d2 ↔ doy l m d < doy l m2 d2 := by
  obtain ⟨ha1, ha2, ha3, ha4⟩ := h1
  obtain ⟨hb1, hb2, hb3, hb4⟩ := h2
  rcases Nat.lt_trichotomy m m2 with h | h | h
  · have := daysBefore_step l m (by omega) m2 (by omega) ha1 h
    unfold pyTupleLt doy
    omega
  · subst h
    unfold pyTupleLt doy
    omega
  · have := daysBefore_step l m2 (by omega) m (by omega) hb1 h
    unfold pyTupleLt doy
    omega

theorem validMD_one_one : ∀ l : Bool, ValidMD l 1 1 := by
  decide

theorem doy_feb_low : ∀ my < 13, 1 ≤ my → my ≤ 2 → ∀ dy < 32,
    dy ≤ daysInMonth false my → daysBefore false my + dy ≤ 59 := by
  decide

/-- Crossing from a leap year into the following year: a date `x` valid under
the non-leap flag sits strictly before (in month/day order) a date `y` valid
under the leap flag whenever its ordinal day is two or more below `y`'s. -/
theorem tuple_lt_of_doy_false_true (mx dx my dy : Nat)
    (hx : ValidMD false mx dx) (hy : ValidMD true my dy)
    (h : doy false mx dx + 2 ≤ doy true my dy) :
    pyTupleLt mx dx my dy := by
  obtain ⟨ha1, ha2, ha3, ha4⟩ := hx
  obtain ⟨hb1, hb2, hb3, hb4⟩ := hy
  by_cases hfeb : my = 2 ∧ dy = 29
  · -- y is Feb 29 (ordinal 60): x must lie on or before Feb 27
    obtain ⟨hm2, hd29⟩ := hfeb
    subst hm2; subst hd29
    have h60 : doy true 2 29 = 60 := rfl
    rw [h60] at h
    unfold pyTupleLt
    rcases Nat.lt_or_ge mx 3 with hm3 | hm3
    · interval_cases mx
      · exact Or.inl (by omega)
      · have e2 : doy false 2 dx = 31 + dx := rfl
        exact Or.inr ⟨rfl, by omega⟩
    · have hge := daysBefore_ge_march mx (by omega) hm3
      have e1 : doy false mx dx = daysBefore false mx + dx := rfl
      omega
  · -- y is not Feb 29, so y is also a valid non-leap date
    have hyv : ValidMD false my dy := by
      refine ⟨hb1, hb2, hb3, ?_⟩
      rcases eq_or_ne my 2 with h2 | h2
      · subst h2
        have e29 : daysInMonth true 2 = 29 := rfl
        have e28 : daysInMonth false 2 = 28 := rfl
        have hne : dy ≠ 29 := fun hdy => hfeb ⟨rfl, hdy⟩
        omega
      · have heq : daysInMonth false my = daysInMonth true my := by
          have h13 : my ≤ 12 := hb2
          have h1b : 1 ≤ my := hb1
          interval_cases my <;> first | rfl | (exact absurd rfl h2)
        rw [heq]
        exact hb4
    have hup := daysBefore_true_le my (by omega)
    have e1 : doy false mx dx = daysBefore false mx + dx := rfl
    have e2 : doy false my dy = daysBefore false my + dy := rfl
    have e3 : doy true my dy = daysBefore true my + dy := rfl
    have hlt : doy false mx dx < doy false my dy := by omega
    exact (doy_lt_iff false mx dx my dy ⟨ha1, ha2, ha3, ha4⟩ hyv).2 hlt

/-- Crossing from a non-leap year into a leap year: a date `x` valid under the
leap flag sits strictly before a date `y` valid under the non-leap flag
whenever its (leap) ordinal day is strictly below `y`'s (non-leap) one. -/
theorem tuple_lt_of_doy_true_false (mx dx my dy : Nat)
    (hx : ValidMD true mx dx) (hy : ValidMD false my dy)
    (h : doy true mx dx < doy false my dy) :
    pyTupleLt mx dx my dy := by
  obtain ⟨ha1, ha2, ha3, ha4⟩ := hx
  obtain ⟨hb1, hb2, hb3, hb4⟩ := hy
  by_cases hfeb : mx = 2 ∧ dx = 29
  · -- x is Feb 29 (ordinal 60): y must lie in March or later
    obtain ⟨hm2, hd29⟩ := hfeb
    subst hm2; subst hd29
    have h60 : doy true 2 29 = 60 := rfl
    rw [h60] at h
    unfold pyTupleLt
    rcases Nat.lt_or_ge my 3 with hm3 | hm3
    · have hlow := doy_feb_low my (by omega) hb1 (by omega) dy
        (by have := daysInMonth_le_31 false my (by omega); omega) hb4
      have e2 : doy false my dy = daysBefore false my + dy := rfl
      omega
    · exact Or.inl (by omega)
  · -- x is not Feb 29, so x is also a valid non-leap date
    have hxv : ValidMD false mx dx := by
      refine ⟨ha1, ha2, ha3, ?_⟩
      rcases eq_or_ne mx 2 with h2 | h2
      · subst h2
        have e29 : daysInMonth true 2 = 29 := rfl
        have e28 : daysInMonth false 2 = 28 := rfl
        have hne : dx ≠ 29 := fun hdx => hfeb ⟨rfl, hdx⟩
        omega
      · have heq : daysInMonth false mx = daysInMonth true mx := by
          have h13 : mx ≤ 12 := ha2
          have h1b : 1 ≤ mx := ha1
          interval_cases mx <;> first | rfl | (exact absurd rfl h2)
        rw [heq]
        exact ha4
    have hlo := daysBefore_false_le mx (by omega)
    have e1 : doy false mx dx = daysBefore false mx + dx := rfl
    have e2 : doy true mx dx = daysBefore true mx + dx := rfl
    have e3 : doy false my dy = daysBefore false my + dy := rfl
    have hlt : doy false mx dx < doy false my dy := by omega
    exact (doy_lt_iff false mx dx my dy hxv ⟨hb1, hb2, hb3, hb4⟩).2 hlt

/-- One day step: either the ordinal day advances by one inside the same year,
or the date was Dec 31 and the step rolls over to Jan 1 of the next year. -/
theorem succDay_step (c : Date) (h : c.Valid) :
    (succDay c).Valid ∧
      (((succDay c).year = c.year ∧
          doy (isLeap c.year) (succDay c).month (succDay c).day =
            doy (isLeap c.year) c.month c.day + 1) ∨
        (doy (isLeap c.year) c.month c.day = yearLen (isLeap c.year) ∧
          succDay c = ⟨c.year + 1, 1, 1⟩)) := by
  rcases c with ⟨y, m, d⟩
  simp only [Date.Valid, ValidMD] at h
  obtain ⟨hm1, hm12, hd1, hdim⟩ := h
  unfold succDay
  dsimp only at *
  split
  · -- day + 1 stays inside the month
    constructor
    · show ValidMD (isLeap y) m (d + 1)
      exact ⟨hm1, hm12, by omega, by omega⟩
    · left
      exact ⟨rfl, rfl⟩
  · split
    · -- roll to the first day of the next month, same year
      have hstep := daysBefore_succ_eq (isLeap y) m (by omega) hm1
      constructor
      · show ValidMD (isLeap y) (m + 1) 1
        exact ⟨by omega, by omega, le_refl 1,
          daysInMonth_pos (isLeap y) (m + 1) (by omega) (by omega)⟩
      · left
        refine ⟨rfl, ?_⟩
        show doy (isLeap y) (m + 1) 1 = doy (isLeap y) m d + 1
        have e1 : doy (isLeap y) (m + 1) 1 = daysBefore (isLeap y) (m + 1) + 1 := rfl
        have e2 : doy (isLeap y) m d = daysBefore (isLeap y) m + d := rfl
        omega
    · -- December 31: roll over to January 1 of the next year
      have hm : m = 12 := by omega
      subst hm
      have e31 : daysInMonth (isLeap y) 12 = 31 := rfl
      have hdm : d = 31 := by omega
      subst hdm
      constructor
      · show ValidMD (isLeap (y + 1)) 1 1
        exact validMD_one_one _
      · right
        refine ⟨?_, rfl⟩
        show doy (isLeap y) 12 31 = yearLen (isLeap y)
        cases hiso : isLeap y <;> rfl

theorem yearLen_bounds : ∀ b : Bool, 365 ≤ yearLen b ∧ yearLen b ≤ 366 := by
  decide

/-- Adding up to 364 days to a valid date either stays in the same year with
the ordinal day advanced accordingly, or lands in the next year having
consumed exactly one full year length. -/
theorem addDays_invariant (d0 : Date) (h0 : d0.Valid) :
    ∀ n, n ≤ 364 → (succDay^[n] d0).Valid ∧
      (((succDay^[n] d0).year = d0.year ∧
          doy (isLeap d0.year) (succDay^[n] d0).month (succDay^[n] d0).day =
            doy (isLeap d0.year) d0.month d0.day + n) ∨
        ((succDay^[n] d0).year = d0.year + 1 ∧
          doy (isLeap (d0.year + 1)) (succDay^[n] d0).month (succDay^[n] d0).day
              + yearLen (isLeap d0.year) =
            doy (isLeap d0.year) d0.month d0.day + n)) := by
  intro n
  induction n with
  | zero => exact fun _ => ⟨h0, Or.inl ⟨rfl, rfl⟩⟩
  | succ k ih =>
    intro hn
    obtain ⟨hv, hcase⟩ := ih (by omega)
    have hiter : succDay^[k + 1] d0 = succDay (succDay^[k] d0) :=
      Function.iterate_succ_apply' succDay k d0
    obtain ⟨hv', hstep⟩ := succDay_step (succDay^[k] d0) hv
    rw [hiter]
    refine ⟨hv', ?_⟩
    have hdoy0ub := doy_le_yearLen (isLeap d0.year) d0.month d0.day h0
    have hyl0 := yearLen_bounds (isLeap d0.year)
    have hyl1 := yearLen_bounds (isLeap (d0.year + 1))
    rcases hcase with ⟨hy, hdoy⟩ | ⟨hy, hdoy⟩
    · rcases hstep with ⟨hy2, hdoy2⟩ | ⟨hfull, heq⟩
      · rw [hy] at hy2 hdoy2
        exact Or.inl ⟨hy2, by omega⟩
      · rw [hy] at hfull heq
        have hy3 : (succDay (succDay^[k] d0)).year = d0.year + 1 := by rw [heq]
        have hm3 : (succDay (succDay^[k] d0)).month = 1 := by rw [heq]
        have hd3 : (succDay (succDay^[k] d0)).day = 1 := by rw [heq]
        refine Or.inr ⟨hy3, ?_⟩
        rw [hm3, hd3]
        have e1 : doy (isLeap (d0.year + 1)) 1 1 = 1 := rfl
        omega
    · rcases hstep with ⟨hy2, hdoy2⟩ | ⟨hfull, heq⟩
      · rw [hy] at hy2 hdoy2
        exact Or.inr ⟨hy2, by omega⟩
      · exfalso
        rw [hy] at hfull
        omega

theorem ageOf_same_monthday (today : Date) (k : Int) :
    ageOf today (some ⟨today.year - k, today.month, today.day⟩) = some k := by
  unfold ageOf
  dsimp only
  rw [if_neg (by unfold pyTupleLt; omega)]
  simp only [Option.some.injEq]
  omega

/-- After adding 364 days to a valid date, either the year is unchanged and
the month/day pair did not move backwards, or the year advanced by one and the
month/day pair is strictly earlier. -/
theorem addDays364_dichotomy (d0 : Date) (h0 : d0.Valid) :
    ((succDay^[364] d0).year = d0.year ∧
      ¬ pyTupleLt (succDay^[364] d0).month (succDay^[364] d0).day
        d0.month d0.day) ∨
    ((succDay^[364] d0).year = d0.year + 1 ∧
      pyTupleLt (succDay^[364] d0).month (succDay^[364] d0).day
        d0.month d0.day) := by
  obtain ⟨hvT, hcase⟩ := addDays_invariant d0 h0 364 le_rfl
  have h0v : ValidMD (isLeap d0.year) d0.month d0.day := h0
  have hTv0 : ValidMD (isLeap (succDay^[364] d0).year)
      (succDay^[364] d0).month (succDay^[364] d0).day := hvT
  have h1doy : 1 ≤ doy (isLeap d0.year) d0.month d0.day := by
    have e : doy (isLeap d0.year) d0.month d0.day =
        daysBefore (isLeap d0.year) d0.month + d0.day := rfl
    have := h0v.2.2.1
    omega
  rcases hcase with ⟨hy, hdoy⟩ | ⟨hy, hdoy⟩
  · left
    refine ⟨hy, ?_⟩
    rw [hy] at hTv0
    intro hlt
    have hdlt := (doy_lt_iff (isLeap d0.year) _ _ _ _ hTv0 h0v).1 hlt
    omega
  · right
    refine ⟨hy, ?_⟩
    rw [hy] at hTv0
    cases h0f : isLeap d0.year <;> cases h1f : isLeap (d0.year + 1) <;>
      simp only [h0f, h1f] at hdoy hTv0 h0v h1doy
    · exact (doy_lt_iff false _ _ _ _ hTv0 h0v).2
        (by have e1 : yearLen false = 365 := rfl; omega)
    · exact tuple_lt_of_doy_true_false _ _ _ _ hTv0 h0v
        (by have e1 : yearLen false = 365 := rfl; omega)
    · exact tuple_lt_of_doy_false_true _ _ _ _ hTv0 h0v
        (by have e1 : yearLen true = 366 := rfl; omega)
    · exact (doy_lt_iff true _ _ _ _ hTv0 h0v).2
        (by have e1 : yearLen true = 366 := rfl; omega)

theorem age_17y364d (dob : Date) (hdob : dob.Valid)
    (h17 : Date.Valid ⟨dob.year + 17, dob.month, dob.day⟩) :
    ageOf (succDay^[364] ⟨dob.year + 17, dob.month, dob.day⟩) (some dob) =
      some 17 := by
  have hdich := addDays364_dichotomy ⟨dob.year + 17, dob.month, dob.day⟩ h17
  have e0 : (⟨dob.year + 17, dob.month, dob.day⟩ : Date).year = dob.year + 17 :=
    rfl
  unfold ageOf
  dsimp only
  rcases hdich with ⟨hy, hnlt⟩ | ⟨hy, hplt⟩
  · rw [if_neg hnlt]
    simp only [Option.some.injEq]
    omega
  · rw [if_pos hplt]
    simp only [Option.some.injEq]
    omega

/-- C5: a patient whose date of birth is exactly 18 years before "today" is
counted in bucket "18-35"; a patient born exactly 17 years plus 364 days
before "today" (i.e. "today" is 364 days after the 17th anniversary of the
birth date) is counted in bucket "0-17"; and a missing date of birth is
skipped, contributing to no bucket and raising no error. -/
theorem c5_age_boundaries :
    (∀ (today : Date) (b : AgeBuckets),
        addAge b (ageOf today (some ⟨today.year - 18, today.month, today.day⟩)) =
          { b with b18_35 := b.b18_35 + 1 }) ∧
    (∀ (dob : Date) (b : AgeBuckets), dob.Valid →
        Date.Valid ⟨dob.year + 17, dob.month, dob.day⟩ →
        addAge b
            (ageOf (succDay^[364] ⟨dob.year + 17, dob.month, dob.day⟩) (some dob)) =
          { b with b0_17 := b.b0_17 + 1 }) ∧
    (∀ (today : Date) (b : AgeBuckets), addAge b (ageOf today none) = b) := by
  refine ⟨?_, ?_, ?_⟩
  · intro today b
    rw [ageOf_same_monthday today 18]
    norm_num [addAge]
  · intro dob b hv h17
    rw [age_17y364d dob hv h17]
    norm_num [addAge]
  · intro today b
    rfl

/-- Witness for `c5_age_boundaries` with date of birth 2008-03-05 (17th
anniversary 2025-03-05, "today" 364 days later). -/
theorem c5_age_boundaries_witness :
    Date.Valid ⟨2008, 3, 5⟩ ∧ Date.Valid ⟨(2008 : Int) + 17, 3, 5⟩ ∧
    addAge ⟨0, 0, 0, 0⟩
        (ageOf (succDay^[364] ⟨(2008 : Int) + 17, 3, 5⟩) (some ⟨2008, 3, 5⟩)) =
      ⟨1, 0, 0, 0⟩ :=
  ⟨by decide, by decide,
    c5_age_boundaries.2.1 ⟨2008, 3, 5⟩ ⟨0, 0, 0, 0⟩ (by decide) (by decide)⟩

/-! ## Financial data model

The ORM classes live in `app/models/financial.py`, which is not part of the
source tree; the shapes below are modelled from the spec (§3): invoices carry
clinic, optional appointment, issue/due dates, an enumerated status of which
only `CANCELLED` matters to analytics, and a total amount; payments carry an
amount and an enumerated status of which only `COMPLETED` counts as paid. -/

/-- Modelled from the spec: invoice status enumeration; analytics only ever
distinguishes `CANCELLED` from the rest. -/
inductive InvoiceStatus where
  | draft
  | issued
  | paid
  | overdue
  | cancelled
deriving DecidableEq, Repr

/-- Modelled from the spec: payment status enumeration; analytics only ever
distinguishes `COMPLETED` from the rest. -/
inductive PaymentStatus where
  | pending
  | completed
  | failed
deriving DecidableEq, Repr

/-- A stored due date, as the aging loop may receive it from the database:
either a full datetime (already a UTC instant in this model — the code's
`tzinfo is None` branch stamps UTC onto the stored wall-clock fields) or a
bare `date`, which the code widens to midnight UTC. UTC instants are integer
seconds. -/
inductive DueDate where
  | asDatetime (sec : Int)
  | asDate (d : Date)
deriving DecidableEq, Repr

/-- Count of leap years strictly before year `y` (proleptic Gregorian). -/
def leapsBefore (y : Int) : Int :=
  (y - 1).fdiv 4 - (y - 1).fdiv 100 + (y - 1).fdiv 400

/-- Rata-die day number of a date (0001-01-01 is day 1). -/
def rataDie (d : Date) : Int :=
  365 * (d.year - 1) + leapsBefore d.year +
    (daysBefore (isLeap d.year) d.month : Int) + d.day

/-- Midnight UTC of a calendar date, in seconds since the Unix epoch
(1970-01-01 is rata-die day 719163). -/
def dateToSec (d : Date) : Int :=
  (rataDie d - 719163) * 86400

/-- The normalisation at the top of the aging loop: a datetime is compared as
the instant it denotes, a bare date as midnight UTC of that day. -/
def normalizeDue : DueDate → Int
  | .asDatetime s => s
  | .asDate d => dateToSec d

/-- An invoice row, with the columns the analytics queries touch. -/
structure Invoice where
  id : Nat
  clinic_id : Nat
  appointment_id : Option Nat
  issue_date : Int
  due_date : Option DueDate
  status : InvoiceStatus
  total_amount : Rat
deriving DecidableEq, Repr

/-- A payment row, with the columns the analytics queries touch. -/
structure Payment where
  invoice_id : Nat
  amount : Rat
  status : PaymentStatus
deriving DecidableEq, Repr

/-! ## C2/C9: accounts-receivable aging -/

/-- The five aging buckets (`buckets` dict in `get_financial_analytics`). -/
structure ArBuckets where
  current : Rat
  b1_30 : Rat
  b31_60 : Rat
  b61_90 : Rat
  over90 : Rat
deriving DecidableEq, Repr

/-- All-zero buckets, the loop's starting value and the fault fallback. -/
def zeroBuckets : ArBuckets := ⟨0, 0, 0, 0, 0⟩

/-- `paid_sum_subq` with `COALESCE`: the summed amount of COMPLETED payments
of one invoice (0 when there are none). -/
def paidSum (pays : List Payment) (invId : Nat) : Rat :=
  ((pays.filter (fun p =>
      decide (p.invoice_id = invId ∧ p.status = PaymentStatus.completed))).map
    (fun p => p.amount)).sum

/-- The rows the aging query returns: for every invoice of the clinic that is
not cancelled and was issued on/before the interval end, its due date and
unpaid amount (total minus completed payments). -/
def agingRows (invs : List Invoice) (pays : List Payment) (clinic : Nat)
    (endSec : Int) : List (Option DueDate × Rat) :=
  (invs.filter (fun i =>
      decide (i.clinic_id = clinic ∧ i.status ≠ InvoiceStatus.cancelled ∧
        i.issue_date ≤ endSec))).map
    (fun i => (i.due_date, i.total_amount - paidSum pays i.id))

/-- One iteration of the aging loop body. -/
def agingStep (nowSec : Int) (b : ArBuckets) (row : Option DueDate × Rat) :
    ArBuckets :=
  if row.2 ≤ 0 then b
  else
    match row.1 with
    | none => { b with current := b.current + row.2 }
    | some dd =>
      if nowSec ≤ normalizeDue dd then { b with current := b.current + row.2 }
      else if (nowSec - normalizeDue dd).toNat / 86400 ≤ 30 then
        { b with b1_30 := b.b1_30 + row.2 }
      else if (nowSec - normalizeDue dd).toNat / 86400 ≤ 60 then
        { b with b31_60 := b.b31_60 + row.2 }
      else if (nowSec - normalizeDue dd).toNat / 86400 ≤ 90 then
        { b with b61_90 := b.b61_90 + row.2 }
      else { b with over90 := b.over90 + row.2 }

/-- The AR-aging computation of `get_financial_analytics`: fold the loop body
over the query rows starting from all-zero buckets. -/
def arAging (invs : List Invoice) (pays : List Payment) (clinic : Nat)
    (endSec nowSec : Int) : ArBuckets :=
  (agingRows invs pays clinic endSec).foldl (agingStep nowSec) zeroBuckets

/-- Spec-side definition, written from the claim's words: the name of the
bucket an unpaid invoice belongs to — "current" when the due date is absent
or not yet past, otherwise by whole days overdue with inclusive bounds
1–30 / 31–60 / 61–90 / over 90. -/
def specBucket (nowSec : Int) (due : Option DueDate) : String :=
  match due with
  | none => "current"
  | some dd =>
    if nowSec ≤ normalizeDue dd then "current"
    else if (nowSec - normalizeDue dd).toNat / 86400 ≤ 30 then "1-30"
    else if 31 ≤ (nowSec - normalizeDue dd).toNat / 86400 ∧
        (nowSec - normalizeDue dd).toNat / 86400 ≤ 60 then "31-60"
    else if 61 ≤ (nowSec - normalizeDue dd).toNat / 86400 ∧
        (nowSec - normalizeDue dd).toNat / 86400 ≤ 90 then "61-90"
    else ">90"

/-- Spec-side definition: the total unpaid amount a list of (due, unpaid)
rows contributes to the named bucket — rows with unpaid ≤ 0 contribute
nowhere. -/
def bucketFilterSum (nowSec : Int) (rows : List (Option DueDate × Rat))
    (name : String) : Rat :=
  ((rows.filter (fun r => decide (0 < r.2 ∧ specBucket nowSec r.1 = name))).map
    (fun r => r.2)).sum

theorem bucketFilterSum_cons (nowSec : Int) (r : Option DueDate × Rat)
    (rows : List (Option DueDate × Rat)) (name : String) :
    bucketFilterSum nowSec (r :: rows) name =
      (if 0 < r.2 ∧ specBucket nowSec r.1 = name then r.2 else 0) +
        bucketFilterSum nowSec rows name := by
  unfold bucketFilterSum
  rw [List.filter_cons]
  by_cases h : 0 < r.2 ∧ specBucket nowSec r.1 = name
  · simp [h]
  · simp [h]

theorem agingStep_eq (nowSec : Int) (b : ArBuckets) (due : Option DueDate)
    (unpaid : Rat) :
    agingStep nowSec b (due, unpaid) =
      ⟨b.current + (if 0 < unpaid ∧ specBucket nowSec due = "current" then unpaid else 0),
       b.b1_30 + (if 0 < unpaid ∧ specBucket nowSec due = "1-30" then unpaid else 0),
       b.b31_60 + (if 0 < unpaid ∧ specBucket nowSec due = "31-60" then unpaid else 0),
       b.b61_90 + (if 0 < unpaid ∧ specBucket nowSec due = "61-90" then unpaid else 0),
       b.over90 + (if 0 < unpaid ∧ specBucket nowSec due = ">90" then unpaid else 0)⟩ := by
  unfold agingStep
  dsimp only
  by_cases h0 : unpaid ≤ 0
  · rw [if_pos h0]
    have hnp : ¬ 0 < unpaid := not_lt.mpr h0
    simp [hnp]
  · rw [if_neg h0]
    have hpos : 0 < unpaid := not_le.mp h0
    cases due with
    | none => simp [specBucket, hpos]
    | some dd =>
      dsimp only
      by_cases hd : nowSec ≤ normalizeDue dd
      · rw [if_pos hd]
        simp [specBucket, hpos, hd]
      · rw [if_neg hd]
        by_cases h30 : (nowSec - normalizeDue dd).toNat / 86400 ≤ 30
        · rw [if_pos h30]
          simp [specBucket, hpos, hd, h30]
        · rw [if_neg h30]
          by_cases h60 : (nowSec - normalizeDue dd).toNat / 86400 ≤ 60
          · rw [if_pos h60]
            have h31 : 31 ≤ (nowSec - normalizeDue dd).toNat / 86400 := by omega
            simp [specBucket, hpos, hd, h30, h60, h31]
          · rw [if_neg h60]
            by_cases h90 : (nowSec - normalizeDue dd).toNat / 86400 ≤ 90
            · rw [if_pos h90]
              have h61 : 61 ≤ (nowSec - normalizeDue dd).toNat / 86400 := by omega
              simp [specBucket, hpos, hd, h30, h60, h90, h61]
            · rw [if_neg h90]
              simp [specBucket, hpos, hd, h30, h60, h90]

theorem aging_foldl_spec (nowSec : Int) (rows : List (Option DueDate × Rat)) :
    ∀ b : ArBuckets, rows.foldl (agingStep nowSec) b =
      ⟨b.current + bucketFilterSum nowSec rows "current",
       b.b1_30 + bucketFilterSum nowSec rows "1-30",
       b.b31_60 + bucketFilterSum nowSec rows "31-60",
       b.b61_90 + bucketFilterSum nowSec rows "61-90",
       b.over90 + bucketFilterSum nowSec rows ">90"⟩ := by
  induction rows with
  | nil =>
    intro b
    simp [bucketFilterSum]
  | cons r rows ih =>
    intro b
    rcases r with ⟨due, unpaid⟩
    rw [List.foldl_cons, agingStep_eq, ih]
    simp only [bucketFilterSum_cons, ArBuckets.mk.injEq]
    refine ⟨?_, ?_, ?_, ?_, ?_⟩ <;> ring

theorem specBucket_cases (nowSec : Int) (due : Option DueDate) :
    specBucket nowSec due = "current" ∨ specBucket nowSec due = "1-30" ∨
    specBucket nowSec due = "31-60" ∨ specBucket nowSec due = "61-90" ∨
    specBucket nowSec due = ">90" := by
  cases due with
  | none => exact Or.inl rfl
  | some dd =>
    unfold specBucket
    dsimp only
    split_ifs <;> simp

theorem bucketFilterSum_partition (nowSec : Int)
    (rows : List (Option DueDate × Rat)) :
    bucketFilterSum nowSec rows "current" + bucketFilterSum nowSec rows "1-30" +
      bucketFilterSum nowSec rows "31-60" + bucketFilterSum nowSec rows "61-90" +
      bucketFilterSum nowSec rows ">90" =
      ((rows.filter (fun r => decide (0 < r.2))).map (fun r => r.2)).sum := by
  induction rows with
  | nil => simp [bucketFilterSum]
  | cons r rows ih =>
    simp only [bucketFilterSum_cons]
    rw [List.filter_cons]
    by_cases hp : 0 < r.2
    · rcases specBucket_cases nowSec r.1 with h | h | h | h | h <;>
        (simp [hp, h]; linarith [ih])
    · simp [hp, ih]

theorem bucketFilterSum_nonneg (nowSec : Int)
    (rows : List (Option DueDate × Rat)) (name : String) :
    0 ≤ bucketFilterSum nowSec rows name := by
  induction rows with
  | nil => simp [bucketFilterSum]
  | cons r rows ih =>
    rw [bucketFilterSum_cons]
    have h0 : (0 : Rat) ≤
        if 0 < r.2 ∧ specBucket nowSec r.1 = name then r.2 else 0 := by
      split_ifs with h
      · exact le_of_lt h.1
      · exact le_refl 0
    linarith

/-- C2: the AR-aging fold distributes each qualifying invoice's unpaid amount
(total minus COMPLETED payments; non-cancelled, clinic-scoped, issued on or
before the interval end) entirely into the single bucket the spec's rule
names — "current" for an absent or not-yet-past due date, else "1-30",
"31-60", "61-90" or ">90" by whole days overdue with inclusive bounds
30/60/90; in particular an invoice with total 100, zero payments and a due
date exactly 31 days before "now" contributes exactly 100 to bucket
"31-60". -/
theorem c2_ar_aging_rule :
    (∀ (invs : List Invoice) (pays : List Payment) (clinic : Nat)
        (endSec nowSec : Int),
      arAging invs pays clinic endSec nowSec =
        ⟨bucketFilterSum nowSec (agingRows invs pays clinic endSec) "current",
         bucketFilterSum nowSec (agingRows invs pays clinic endSec) "1-30",
         bucketFilterSum nowSec (agingRows invs pays clinic endSec) "31-60",
         bucketFilterSum nowSec (agingRows invs pays clinic endSec) "61-90",
         bucketFilterSum nowSec (agingRows invs pays clinic endSec) ">90"⟩) ∧
    arAging
        [⟨1, 1, none, 0, some (DueDate.asDatetime (1000000000 - 31 * 86400)),
          InvoiceStatus.issued, 100⟩]
        [] 1 0 1000000000 =
      ⟨0, 0, 100, 0, 0⟩ := by
  constructor
  · intro invs pays clinic endSec nowSec
    unfold arAging
    rw [aging_foldl_spec]
    simp [zeroBuckets]
  · have hrow : agingRows
        [⟨1, 1, none, 0, some (DueDate.asDatetime (1000000000 - 31 * 86400)),
          InvoiceStatus.issued, 100⟩] [] 1 0 =
        [(some (DueDate.asDatetime (1000000000 - 31 * 86400)), 100)] := by
      unfold agingRows paidSum
      norm_num
      simp
    unfold arAging
    rw [hrow]
    unfold agingStep normalizeDue zeroBuckets
    norm_num
    have hdays : Int.toNat 2678400 / 86400 = 31 := by decide
    rw [hdays]
    norm_num

/-- C9 (implicit invariant): the five AR-aging buckets partition the
qualifying unpaid amounts — their sum equals the sum of unpaid amounts over
all qualifying rows with unpaid > 0, and, when all invoice totals and payment
amounts are nonnegative, every bucket value is nonnegative. -/
theorem c9_ar_aging_partition :
    ∀ (invs : List Invoice) (pays : List Payment) (clinic : Nat)
      (endSec nowSec : Int),
      (∀ i ∈ invs, 0 ≤ i.total_amount) →
      (∀ p ∈ pays, 0 ≤ p.amount) →
      ((arAging invs pays clinic endSec nowSec).current +
          (arAging invs pays clinic endSec nowSec).b1_30 +
          (arAging invs pays clinic endSec nowSec).b31_60 +
          (arAging invs pays clinic endSec nowSec).b61_90 +
          (arAging invs pays clinic endSec nowSec).over90 =
        (((agingRows invs pays clinic endSec).filter
            (fun r => decide (0 < r.2))).map (fun r => r.2)).sum) ∧
      (0 ≤ (arAging invs pays clinic endSec nowSec).current ∧
        0 ≤ (arAging invs pays clinic endSec nowSec).b1_30 ∧
        0 ≤ (arAging invs pays clinic endSec nowSec).b31_60 ∧
        0 ≤ (arAging invs pays clinic endSec nowSec).b61_90 ∧
        0 ≤ (arAging invs pays clinic endSec nowSec).over90) := by
  intro invs pays clinic endSec nowSec hT hP
  unfold arAging
  rw [aging_foldl_spec]
  constructor
  · have := bucketFilterSum_partition nowSec (agingRows invs pays clinic endSec)
    simp [zeroBuckets]
    linarith
  · refine ⟨?_, ?_, ?_, ?_, ?_⟩ <;> simp [zeroBuckets] <;>
      exact bucketFilterSum_nonneg _ _ _

/-- Witness for `c9_ar_aging_partition` on a one-invoice database. -/
theorem c9_ar_aging_partition_witness :
    0 ≤ (arAging [⟨1, 1, none, 0, none, InvoiceStatus.issued, 50⟩] [] 1 0 0).current ∧
    0 ≤ (arAging [⟨1, 1, none, 0, none, InvoiceStatus.issued, 50⟩] [] 1 0 0).b1_30 ∧
    0 ≤ (arAging [⟨1, 1, none, 0, none, InvoiceStatus.issued, 50⟩] [] 1 0 0).b31_60 ∧
    0 ≤ (arAging [⟨1, 1, none, 0, none, InvoiceStatus.issued, 50⟩] [] 1 0 0).b61_90 ∧
    0 ≤ (arAging [⟨1, 1, none, 0, none, InvoiceStatus.issued, 50⟩] [] 1 0 0).over90 :=
  (c9_ar_aging_partition [⟨1, 1, none, 0, none, InvoiceStatus.issued, 50⟩] [] 1 0 0
    (by decide) (by decide)).2

/-! ## C8: invoice totals and the average-invoice-value guard -/

/-- Python 3 `round(x, 2)` on an exact value: scale by 100, round half to
even, and divide back. -/
def round2 (q : Rat) : Rat :=
  (if q * 100 - Int.floor (q * 100) < 1 / 2 then ((Int.floor (q * 100) : Rat))
   else if 1 / 2 < q * 100 - Int.floor (q * 100) then ((Int.floor (q * 100) : Rat) + 1)
   else if Int.floor (q * 100) % 2 = 0 then ((Int.floor (q * 100) : Rat))
   else ((Int.floor (q * 100) : Rat) + 1)) / 100

/-- The totals query of `get_financial_analytics`: count and summed total of
the clinic's non-cancelled invoices issued inside the interval. -/
def financialTotals (invs : List Invoice) (clinic : Nat)
    (startSec endSec : Int) : Nat × Rat :=
  ((invs.filter (fun i =>
      decide (i.clinic_id = clinic ∧ startSec ≤ i.issue_date ∧
        i.issue_date ≤ endSec ∧ i.status ≠ InvoiceStatus.cancelled))).length,
   ((invs.filter (fun i =>
      decide (i.clinic_id = clinic ∧ startSec ≤ i.issue_date ∧
        i.issue_date ≤ endSec ∧ i.status ≠ InvoiceStatus.cancelled))).map
      (fun i => i.total_amount)).sum)

/-- `average_invoice_value = round(total_revenue / max(total_invoices, 1), 2)`. -/
def averageInvoiceValue (invs : List Invoice) (clinic : Nat)
    (startSec endSec : Int) : Rat :=
  round2 ((financialTotals invs clinic startSec endSec).2 /
    ((max (financialTotals invs clinic startSec endSec).1 1 : Nat) : Rat))

theorem round2_zero : round2 0 = 0 := by
  unfold round2
  norm_num

/-- C8: the average invoice value is the total revenue divided by
`max(count, 1)` rounded to two decimals; the denominator is always positive
(never zero), and with zero invoices in the interval the reported average is
exactly 0. -/
theorem c8_average_invoice_value (invs : List Invoice) (clinic : Nat)
    (startSec endSec : Int) :
    averageInvoiceValue invs clinic startSec endSec =
      round2 ((financialTotals invs clinic startSec endSec).2 /
        ((max (financialTotals invs clinic startSec endSec).1 1 : Nat) : Rat)) ∧
    0 < max (financialTotals invs clinic startSec endSec).1 1 ∧
    ((financialTotals invs clinic startSec endSec).1 = 0 →
      averageInvoiceValue invs clinic startSec endSec = 0) := by
  refine ⟨rfl, by omega, ?_⟩
  intro hcount
  unfold averageInvoiceValue
  unfold financialTotals at hcount ⊢
  dsimp only at hcount ⊢
  rw [List.length_eq_zero] at hcount
  rw [hcount]
  simp [round2_zero]

/-- Witness for `c8_average_invoice_value`: a database whose only invoice
falls outside the requested interval. -/
theorem c8_average_invoice_value_witness :
    (financialTotals [⟨1, 1, none, 50, none, InvoiceStatus.issued, 100⟩] 1 0 10).1 = 0 ∧
    averageInvoiceValue [⟨1, 1, none, 50, none, InvoiceStatus.issued, 100⟩] 1 0 10 = 0 :=
  ⟨by decide,
   (c8_average_invoice_value [⟨1, 1, none, 50, none, InvoiceStatus.issued, 100⟩]
      1 0 10).2.2 (by decide)⟩

/-! ## C3: patients by age group (`get_clinical_analytics`) -/

/-- A patient row; only the columns the clinical analytics queries touch. -/
structure Patient where
  id : Nat
  date_of_birth : Option Date
deriving DecidableEq, Repr

/-- An appointment row; only the columns the analytics queries touch.
The enumerated status is carried as its rendered label. -/
structure Appointment where
  id : Nat
  clinic_id : Nat
  doctor_id : Nat
  patient_id : Nat
  scheduled : Int
  status : String
deriving DecidableEq, Repr

/-- The DOB query of `get_clinical_analytics`: `Patient.date_of_birth` joined
to `Appointment` on `patient_id`, filtered to the clinic and interval — one
row per matching (patient, appointment) pair, with no de-duplication. -/
def dobRows (pats : List Patient) (apps : List Appointment) (clinic : Nat)
    (startSec endSec : Int) : List (Option Date) :=
  pats.flatMap (fun p =>
    (apps.filter (fun a =>
        decide (a.patient_id = p.id ∧ a.clinic_id = clinic ∧
          startSec ≤ a.scheduled ∧ a.scheduled ≤ endSec))).map
      (fun _ => p.date_of_birth))

/-- The age-bucketing loop of `get_clinical_analytics` over the DOB rows. -/
def patientsByAgeGroup (pats : List Patient) (apps : List Appointment)
    (clinic : Nat) (startSec endSec : Int) (today : Date) : AgeBuckets :=
  (dobRows pats apps clinic startSec endSec).foldl
    (fun b dob => addAge b (ageOf today dob)) ⟨0, 0, 0, 0⟩

/-- Spec-side definition: whether a row's age (if any) lies in the given
inclusive range (an absent bound is unconstrained). -/
def ageInRange (today : Date) (dob : Option Date) (lo hi : Option Int) : Bool :=
  match ageOf today dob with
  | none => false
  | some a =>
    (match lo with
     | none => true
     | some l => decide (l ≤ a)) &&
    (match hi with
     | none => true
     | some h => decide (a ≤ h))

theorem addAge_eq (b : AgeBuckets) (today : Date) (dob : Option Date) :
    addAge b (ageOf today dob) =
      ⟨b.b0_17 + (if ageInRange today dob none (some 17) then 1 else 0),
       b.b18_35 + (if ageInRange today dob (some 18) (some 35) then 1 else 0),
       b.b36_55 + (if ageInRange today dob (some 36) (some 55) then 1 else 0),
       b.b56plus + (if ageInRange today dob (some 56) none then 1 else 0)⟩ := by
  cases hage : ageOf today dob with
  | none => simp [addAge, ageInRange, hage]
  | some a =>
    unfold addAge ageInRange
    rw [hage]
    dsimp only
    by_cases h17 : a ≤ 17
    · rw [if_pos h17]
      simp [h17, show ¬ (18 : Int) ≤ a by omega, show ¬ (36 : Int) ≤ a by omega,
        show ¬ (56 : Int) ≤ a by omega]
    · rw [if_neg h17]
      by_cases h35 : a ≤ 35
      · rw [if_pos h35]
        simp [h17, h35, show (18 : Int) ≤ a by omega,
          show ¬ (36 : Int) ≤ a by omega, show ¬ (56 : Int) ≤ a by omega]
      · rw [if_neg h35]
        by_cases h55 : a ≤ 55
        · rw [if_pos h55]
          simp [h17, h35, h55, show (36 : Int) ≤ a by omega,
            show ¬ (56 : Int) ≤ a by omega]
        · rw [if_neg h55]
          simp [h17, h35, h55, show (56 : Int) ≤ a by omega,
            show ¬ a ≤ (17 : Int) by omega, show ¬ a ≤ (35 : Int) by omega,
            show ¬ a ≤ (55 : Int) by omega]

theorem ageFold_spec (today : Date) (rows : List (Option Date)) :
    ∀ b : AgeBuckets,
      rows.foldl (fun b dob => addAge b (ageOf today dob)) b =
        ⟨b.b0_17 + rows.countP (fun dob => ageInRange today dob none (some 17)),
         b.b18_35 + rows.countP (fun dob => ageInRange today dob (some 18) (some 35)),
         b.b36_55 + rows.countP (fun dob => ageInRange today dob (some 36) (some 55)),
         b.b56plus + rows.countP (fun dob => ageInRange today dob (some 56) none)⟩ := by
  induction rows with
  | nil =>
    intro b
    simp
  | cons r rows ih =>
    intro b
    rw [List.foldl_cons, addAge_eq, ih]
    simp only [List.countP_cons, AgeBuckets.mk.injEq]
    refine ⟨?_, ?_, ?_, ?_⟩ <;> dsimp only <;> split_ifs <;> omega

theorem ageInRange_partition (today : Date) (rows : List (Option Date)) :
    rows.countP (fun dob => ageInRange today dob none (some 17)) +
      rows.countP (fun dob => ageInRange today dob (some 18) (some 35)) +
      rows.countP (fun dob => ageInRange today dob (some 36) (some 55)) +
      rows.countP (fun dob => ageInRange today dob (some 56) none) =
      rows.countP (fun dob => (ageOf today dob).isSome) := by
  induction rows with
  | nil => simp
  | cons r rows ih =>
    simp only [List.countP_cons]
    cases hage : ageOf today r with
    | none =>
      simp only [ageInRange, Bool.and_true, Bool.true_and] at ih
      simp [ageInRange, hage]
      omega
    | some a =>
      simp only [ageInRange, Bool.and_true, Bool.true_and] at ih
      simp only [ageInRange, hage, Option.isSome_some, Bool.and_true,
        Bool.true_and]
      by_cases c1 : a ≤ 17 <;> by_cases c2 : a ≤ 35 <;> by_cases c3 : a ≤ 55 <;>
        simp [c1, c2, c3, show ((18 : Int) ≤ a ↔ ¬ a ≤ 17) by omega,
          show ((36 : Int) ≤ a ↔ ¬ a ≤ 35) by omega,
          show ((56 : Int) ≤ a ↔ ¬ a ≤ 55) by omega] <;>
        omega

/-- C3 counterexample: one patient (born 1980-01-01, i.e. of known age) with
two appointments inside the interval is counted twice in bucket "36-55" —
the DOB query joins patients to appointments with no de-duplication, so a
patient is not counted "exactly once ... regardless of how many appointments
that patient has in the interval". -/
theorem c3_counterexample :
    patientsByAgeGroup [⟨1, some ⟨1980, 1, 1⟩⟩]
        [⟨1, 1, 1, 1, 5, "scheduled"⟩, ⟨2, 1, 1, 1, 6, "scheduled"⟩]
        1 0 10 ⟨2026, 10, 12⟩ =
      ⟨0, 0, 2, 0⟩ := by
  decide

/-- C3 (amended): every (patient, appointment-in-interval) join row whose
patient has a known date of birth is counted exactly once, in exactly one of
the four buckets — the bucket counts equal the number of join rows whose age
falls in the bucket's range, and the four counts sum to the number of join
rows with a known date of birth (so a patient with k interval appointments
contributes k, all to the same bucket). -/
theorem c3_age_group_per_row :
    ∀ (pats : List Patient) (apps : List Appointment) (clinic : Nat)
      (startSec endSec : Int) (today : Date),
      patientsByAgeGroup pats apps clinic startSec endSec today =
        ⟨(dobRows pats apps clinic startSec endSec).countP
            (fun dob => ageInRange today dob none (some 17)),
         (dobRows pats apps clinic startSec endSec).countP
            (fun dob => ageInRange today dob (some 18) (some 35)),
         (dobRows pats apps clinic startSec endSec).countP
            (fun dob => ageInRange today dob (some 36) (some 55)),
         (dobRows pats apps clinic startSec endSec).countP
            (fun dob => ageInRange today dob (some 56) none)⟩ ∧
      (patientsByAgeGroup pats apps clinic startSec endSec today).b0_17 +
          (patientsByAgeGroup pats apps clinic startSec endSec today).b18_35 +
          (patientsByAgeGroup pats apps clinic startSec endSec today).b36_55 +
          (patientsByAgeGroup pats apps clinic startSec endSec today).b56plus =
        (dobRows pats apps clinic startSec endSec).countP
          (fun dob => (ageOf today dob).isSome) := by
  intro pats apps clinic startSec endSec today
  constructor
  · unfold patientsByAgeGroup
    rw [ageFold_spec]
    simp
  · unfold patientsByAgeGroup
    rw [ageFold_spec]
    dsimp only
    simpa using ageInRange_partition today (dobRows pats apps clinic startSec endSec)

/-! ## C7/C10: the custom report engine (`run_custom_report`) -/

/-- A user row (doctors are users joined via `Appointment.doctor_id`). -/
structure User where
  id : Nat
  first_name : String
  last_name : String
deriving DecidableEq, Repr

/-- A service item row. -/
structure ServiceItem where
  id : Nat
  name : String
deriving DecidableEq, Repr

/-- An invoice line row. -/
structure InvoiceLine where
  invoice_id : Nat
  service_item_id : Nat
  line_total : Rat
  quantity : Rat
deriving DecidableEq, Repr

/-- `func.concat(User.first_name, " ", User.last_name)`. -/
def doctorName (u : User) : String :=
  u.first_name ++ " " ++ u.last_name

/-- A cell value of a custom report row. -/
inductive RVal where
  | s (v : String)
  | q (v : Rat)
  | n (v : Nat)
deriving DecidableEq, Repr

/-- A custom report result: column names plus rows of (column, value) cells. -/
structure ReportResult where
  columns : List String
  rows : List (List (String × RVal))
deriving DecidableEq, Repr

/-- SQL `GROUP BY` with `COUNT`: one entry per distinct key, counting its
occurrences (key order is a fixed but inessential artefact of the model). -/
def groupCount {α : Type} [DecidableEq α] (xs : List α) : List (α × Nat) :=
  xs.dedup.map (fun k => (k, xs.countP (fun y => decide (y = k))))

/-- SQL `GROUP BY` with `SUM` over keyed rational values. -/
def groupSum (ps : List (String × Rat)) : List (String × Rat) :=
  (ps.map Prod.fst).dedup.map (fun k =>
    (k, ((ps.filter (fun x => decide (x.1 = k))).map Prod.snd).sum))

theorem groupCount_keys_nodup {α : Type} [DecidableEq α] (xs : List α) :
    ((groupCount xs).map Prod.fst).Nodup := by
  unfold groupCount
  rw [List.map_map]
  have h : (Prod.fst ∘ fun k => (k, xs.countP (fun y => decide (y = k)))) = id :=
    rfl
  rw [h, List.map_id]
  exact xs.nodup_dedup

theorem groupCount_sound {α : Type} [DecidableEq α] (xs : List α) :
    ∀ kv ∈ groupCount xs, kv.1 ∈ xs ∧
      kv.2 = xs.countP (fun y => decide (y = kv.1)) := by
  intro kv hkv
  unfold groupCount at hkv
  rw [List.mem_map] at hkv
  obtain ⟨k, hk, rfl⟩ := hkv
  exact ⟨List.mem_dedup.mp hk, rfl⟩

theorem groupCount_complete {α : Type} [DecidableEq α] (xs : List α) :
    ∀ x ∈ xs, (x, xs.countP (fun y => decide (y = x))) ∈ groupCount xs := by
  intro x hx
  unfold groupCount
  rw [List.mem_map]
  exact ⟨x, List.mem_dedup.mpr hx, rfl⟩

/-- The joined (invoice → appointment → doctor) revenue pairs of the
financial custom report's "doctor" grouping. -/
def finDoctorPairs (invs : List Invoice) (apps : List Appointment)
    (users : List User) (clinic : Nat) (startSec endSec : Int) :
    List (String × Rat) :=
  invs.flatMap (fun i =>
    if i.clinic_id = clinic ∧ startSec ≤ i.issue_date ∧
        i.issue_date ≤ endSec ∧ i.status ≠ InvoiceStatus.cancelled then
      (apps.filter (fun a => decide (i.appointment_id = some a.id))).flatMap
        (fun a =>
          (users.filter (fun u => decide (u.id = a.doctor_id))).map
            (fun u => (doctorName u, i.total_amount)))
    else [])

/-- The joined (line → invoice, line → service) revenue pairs of the
financial custom report's "service" grouping. -/
def finServicePairs (invs : List Invoice) (lines : List InvoiceLine)
    (services : List ServiceItem) (clinic : Nat) (startSec endSec : Int) :
    List (String × Rat) :=
  lines.flatMap (fun ln =>
    (invs.filter (fun i =>
        decide (i.id = ln.invoice_id ∧ i.clinic_id = clinic ∧
          startSec ≤ i.issue_date ∧ i.issue_date ≤ endSec ∧
          i.status ≠ InvoiceStatus.cancelled))).flatMap
      (fun _ =>
        (services.filter (fun sv => decide (sv.id = ln.service_item_id))).map
          (fun sv => (sv.name, ln.line_total))))

/-- Ungrouped financial total for the interval (no grouping dimension). -/
def finTotalRevenue (invs : List Invoice) (clinic : Nat)
    (startSec endSec : Int) : Rat :=
  ((invs.filter (fun i =>
      decide (i.clinic_id = clinic ∧ startSec ≤ i.issue_date ∧
        i.issue_date ≤ endSec ∧ i.status ≠ InvoiceStatus.cancelled))).map
    (fun i => i.total_amount)).sum

/-- The `domain == "financial"` branch of `run_custom_report`: `if "doctor"
in group_by` wins, `elif "service" in group_by` comes second, else an
ungrouped total. -/
def runCustomReportFinancial (invs : List Invoice) (apps : List Appointment)
    (users : List User) (lines : List InvoiceLine)
    (services : List ServiceItem) (clinic : Nat) (startSec endSec : Int)
    (groupBy : List String) : ReportResult :=
  if "doctor" ∈ groupBy then
    ⟨["doctor", "sum_revenue"],
     (groupSum (finDoctorPairs invs apps users clinic startSec endSec)).map
       (fun kv => [("doctor", RVal.s kv.1), ("sum_revenue", RVal.q kv.2)])⟩
  else if "service" ∈ groupBy then
    ⟨["service", "sum_revenue"],
     (groupSum (finServicePairs invs lines services clinic startSec endSec)).map
       (fun kv => [("service", RVal.s kv.1), ("sum_revenue", RVal.q kv.2)])⟩
  else
    ⟨["sum_revenue"],
     [[("sum_revenue", RVal.q (finTotalRevenue invs clinic startSec endSec))]]⟩

/-- C7: for every clinic, interval and data, the financial custom report with
`group_by = ["doctor", "service"]` is identical to the one with
`group_by = ["doctor"]` — "doctor" wins first-match, "service" is ignored,
and the result carries exactly one grouping dimension. -/
theorem c7_financial_first_match_wins :
    ∀ (invs : List Invoice) (apps : List Appointment) (users : List User)
      (lines : List InvoiceLine) (services : List ServiceItem) (clinic : Nat)
      (startSec endSec : Int),
      runCustomReportFinancial invs apps users lines services clinic
          startSec endSec ["doctor", "service"] =
        runCustomReportFinancial invs apps users lines services clinic
          startSec endSec ["doctor"] ∧
      (runCustomReportFinancial invs apps users lines services clinic
          startSec endSec ["doctor", "service"]).columns =
        ["doctor", "sum_revenue"] := by
  intro invs apps users lines services clinic startSec endSec
  constructor <;> simp [runCustomReportFinancial]

/-- The appointments of the clinic inside the interval. -/
def apptFiltered (apps : List Appointment) (clinic : Nat)
    (startSec endSec : Int) : List Appointment :=
  apps.filter (fun a =>
    decide (a.clinic_id = clinic ∧ startSec ≤ a.scheduled ∧
      a.scheduled ≤ endSec))

/-- The (status, doctor) rows of the appointments report when both grouping
dimensions are requested (the doctor join is inner, as in the SQL). -/
def apptStatusDoctorPairs (apps : List Appointment) (users : List User)
    (clinic : Nat) (startSec endSec : Int) : List (String × String) :=
  (apptFiltered apps clinic startSec endSec).flatMap (fun a =>
    (users.filter (fun u => decide (u.id = a.doctor_id))).map
      (fun u => (a.status, doctorName u)))

/-- The status rows when only "status" is requested (no join). -/
def apptStatusList (apps : List Appointment) (clinic : Nat)
    (startSec endSec : Int) : List String :=
  (apptFiltered apps clinic startSec endSec).map (fun a => a.status)

/-- The doctor rows when only "doctor" is requested. -/
def apptDoctorList (apps : List Appointment) (users : List User) (clinic : Nat)
    (startSec endSec : Int) : List String :=
  (apptFiltered apps clinic startSec endSec).flatMap (fun a =>
    (users.filter (fun u => decide (u.id = a.doctor_id))).map doctorName)

/-- The `domain == "appointments"` branch of `run_custom_report`: the column
list is built status-first then doctor (independently of the order inside
`group_by`), `count` is always appended, and with no recognised grouping the
result is one ungrouped total row. -/
def runCustomReportAppointments (apps : List Appointment) (users : List User)
    (clinic : Nat) (startSec endSec : Int) (groupBy : List String) :
    ReportResult :=
  if "status" ∈ groupBy then
    if "doctor" ∈ groupBy then
      ⟨["status", "doctor", "count"],
       (groupCount (apptStatusDoctorPairs apps users clinic startSec endSec)).map
         (fun kv => [("status", RVal.s kv.1.1), ("doctor", RVal.s kv.1.2),
           ("count", RVal.n kv.2)])⟩
    else
      ⟨["status", "count"],
       (groupCount (apptStatusList apps clinic startSec endSec)).map
         (fun kv => [("status", RVal.s kv.1), ("count", RVal.n kv.2)])⟩
  else if "doctor" ∈ groupBy then
    ⟨["doctor", "count"],
     (groupCount (apptDoctorList apps users clinic startSec endSec)).map
       (fun kv => [("doctor", RVal.s kv.1), ("count", RVal.n kv.2)])⟩
  else
    ⟨["count"],
     [[("count", RVal.n (apptFiltered apps clinic startSec endSec).length)]]⟩

/-- C10 (implicit): in the appointments domain both grouping dimensions can be
active at once — whenever `group_by` contains both "status" and "doctor" the
columns are exactly `["status", "doctor", "count"]` and the rows are grouped
by both: one row per distinct (status, doctor) pair of the filtered joined
rows, carrying that pair's occurrence count, with no pair repeated and no
pair missed; with an empty `group_by` the result is a single ungrouped row
whose only column is "count", holding the total number of the clinic's
appointments in the interval. -/
theorem c10_appointments_grouping :
    ∀ (apps : List Appointment) (users : List User) (clinic : Nat)
      (startSec endSec : Int) (groupBy : List String),
      ("status" ∈ groupBy → "doctor" ∈ groupBy →
        (runCustomReportAppointments apps users clinic startSec endSec
            groupBy).columns = ["status", "doctor", "count"] ∧
        (runCustomReportAppointments apps users clinic startSec endSec
            groupBy).rows =
          (groupCount (apptStatusDoctorPairs apps users clinic startSec
              endSec)).map
            (fun kv => [("status", RVal.s kv.1.1), ("doctor", RVal.s kv.1.2),
              ("count", RVal.n kv.2)]) ∧
        ((groupCount (apptStatusDoctorPairs apps users clinic startSec
            endSec)).map Prod.fst).Nodup ∧
        (∀ kv ∈ groupCount (apptStatusDoctorPairs apps users clinic startSec
            endSec),
          kv.1 ∈ apptStatusDoctorPairs apps users clinic startSec endSec ∧
          kv.2 = (apptStatusDoctorPairs apps users clinic startSec
            endSec).countP (fun y => decide (y = kv.1))) ∧
        (∀ p ∈ apptStatusDoctorPairs apps users clinic startSec endSec,
          (p, (apptStatusDoctorPairs apps users clinic startSec
            endSec).countP (fun y => decide (y = p))) ∈
            groupCount (apptStatusDoctorPairs apps users clinic startSec
              endSec))) ∧
      (groupBy = [] →
        runCustomReportAppointments apps users clinic startSec endSec groupBy =
          ⟨["count"],
           [[("count", RVal.n (apps.countP (fun a =>
              decide (a.clinic_id = clinic ∧ startSec ≤ a.scheduled ∧
                a.scheduled ≤ endSec))))]]⟩) := by
  intro apps users clinic startSec endSec groupBy
  constructor
  · intro hs hd
    unfold runCustomReportAppointments
    rw [if_pos hs, if_pos hd]
    exact ⟨rfl, rfl, groupCount_keys_nodup _, groupCount_sound _,
      groupCount_complete _⟩
  · intro hempty
    subst hempty
    unfold runCustomReportAppointments
    rw [if_neg (by simp), if_neg (by simp)]
    unfold apptFiltered
    rw [List.countP_eq_length_filter]

/-- Witness for `c10_appointments_grouping`: `group_by = ["doctor",
"status"]` (reversed order) on a two-appointment database. -/
theorem c10_appointments_grouping_witness :
    (runCustomReportAppointments
        [⟨1, 1, 7, 1, 5, "scheduled"⟩, ⟨2, 1, 7, 1, 6, "completed"⟩]
        [⟨7, "Ana", "Silva"⟩] 1 0 10 ["doctor", "status"]).columns =
      ["status", "doctor", "count"] :=
  ((c10_appointments_grouping
      [⟨1, 1, 7, 1, 5, "scheduled"⟩, ⟨2, 1, 7, 1, 6, "completed"⟩]
      [⟨7, "Ana", "Silva"⟩] 1 0 10 ["doctor", "status"]).1
    (by decide) (by decide)).1

/-! ## C1/C4: the financial endpoint's control flow

`get_financial_analytics` is modelled as a function of an environment that
fixes the authenticated user's clinic, the cache lookup, and the outcome of
each of the six SQL queries (success with rows, or a raised error). The
`try/except` structure is modelled by an inner `Except PyExc` computation and
an outer wrapper reproducing the two `except` handlers. -/

/-- An `HTTPException` as the caller observes it: status code and detail. -/
structure HTTPError where
  status : Nat
  detail : String
deriving DecidableEq, Repr

/-- An exception raised inside the endpoint body: the endpoint's own
`HTTPException`, a `SQLAlchemyError`, or any other `Exception`. -/
inductive PyExc where
  | http (status : Nat) (detail : String)
  | sqlErr (msg : String)
  | otherErr (msg : String)
deriving DecidableEq, Repr

/-- Python's `str(e)`: for `HTTPException` this is `"{status}: {detail}"`. -/
def strOfExc : PyExc → String
  | .http s d => Nat.repr s ++ ": " ++ d
  | .sqlErr m => m
  | .otherErr m => m

/-- The financial analytics response object. -/
structure FinResp where
  period : String
  start_date : DateTime
  end_date : DateTime
  revenue_by_doctor : List (String × Rat)
  revenue_by_service : List (String × Rat)
  monthly_revenue_trend : List (String × Rat)
  total_revenue : Rat
  average_invoice_value : Rat
  total_invoices : Nat
  ar_aging : ArBuckets
  cost_per_procedure : List (String × Rat)
  denial_patterns : List String
deriving DecidableEq, Repr

/-- The request environment: clinic of the caller, request instant, cache
lookup result, and the outcome of each SQL query in source order. -/
structure FinEnv where
  clinic_id : Option Nat
  now : DateTime
  nowSec : Int
  cached : Option FinResp
  qRevDoctor : Except PyExc (List (String × Rat))
  qRevService : Except PyExc (List (Option String × Rat))
  qMonthly : Except PyExc (List (String × Rat))
  qTotals : Except PyExc (Option (Nat × Rat))
  qAging : Except PyExc (List (Option DueDate × Rat))
  qCpp : Except PyExc (List (String × Option Rat))
deriving Repr

/-- `(r.doctor_name or "").strip()` applied to each revenue-by-doctor row. -/
def procRevDoctor (rows : List (String × Rat)) : List (String × Rat) :=
  rows.map (fun r => (r.1.trim, r.2))

/-- `(r.service_name or "Desconhecido")`: a NULL or empty (falsy) name
renders as the placeholder. -/
def procRevService (rows : List (Option String × Rat)) : List (String × Rat) :=
  rows.map (fun r =>
    (match r.1 with
     | none => "Desconhecido"
     | some s => if s = "" then "Desconhecido" else s, r.2))

/-- `float(r.avg_cost or 0)`: the NULL average of a zero-quantity group
renders as 0. -/
def procCpp (rows : List (String × Option Rat)) : List (String × Rat) :=
  rows.map (fun r => (r.1, r.2.getD 0))

/-- The totals row unpacking: a missing row counts as zero invoices and zero
revenue. -/
def totOf : Option (Nat × Rat) → Nat × Rat
  | none => (0, 0)
  | some p => p

/-- The body of the `try:` block: clinic check first, then cache, then the
six queries in source order — revenue-by-doctor, revenue-by-service, monthly
trend and totals propagate their errors, while the aging and
cost-per-procedure blocks catch theirs and fall back to zero buckets / an
empty list. -/
def finInner (env : FinEnv) (period : String) : Except PyExc FinResp :=
  match env.clinic_id with
  | none => Except.error (PyExc.http 400 "User is not associated with a clinic")
  | some _ =>
    match env.cached with
    | some r => Except.ok r
    | none => do
      let rd ← env.qRevDoctor
      let rs ← env.qRevService
      let mo ← env.qMonthly
      let tot ← env.qTotals
      let buckets :=
        match env.qAging with
        | Except.error _ => zeroBuckets
        | Except.ok rows => rows.foldl (agingStep env.nowSec) zeroBuckets
      let cpp :=
        match env.qCpp with
        | Except.error _ => ([] : List (String × Rat))
        | Except.ok rows => procCpp rows
      Except.ok
        { period := period
          start_date := (periodToDates env.now period).1
          end_date := (periodToDates env.now period).2
          revenue_by_doctor := procRevDoctor rd
          revenue_by_service := procRevService rs
          monthly_revenue_trend := mo
          total_revenue := (totOf tot).2
          average_invoice_value :=
            round2 ((totOf tot).2 / ((max (totOf tot).1 1 : Nat) : Rat))
          total_invoices := (totOf tot).1
          ar_aging := buckets
          cost_per_procedure := cpp
          denial_patterns := [] }

/-- The two `except` handlers: `SQLAlchemyError` → 500 "Database error: …";
every other exception — the endpoint's own `HTTPException(400)` included —
→ 500 "Error generating financial analytics: str(e)". -/
def wrapFin : Except PyExc FinResp → Except HTTPError FinResp
  | Except.ok r => Except.ok r
  | Except.error (PyExc.sqlErr m) => Except.error ⟨500, "Database error: " ++ m⟩
  | Except.error e =>
      Except.error ⟨500, "Error generating financial analytics: " ++ strOfExc e⟩

/-- `get_financial_analytics` as the caller observes it. -/
def getFinancialAnalytics (env : FinEnv) (period : String) :
    Except HTTPError FinResp :=
  wrapFin (finInner env period)

/-- C1 (code bug): when the caller has no clinic association the endpoint
does short-circuit before resolving the period or consulting the cache or
any query — the outcome below holds for every environment with
`clinic_id = None`, whatever its cache and query fields hold — but the
blanket `except Exception` handler catches the endpoint's own
`HTTPException(400, "User is not associated with a clinic")` and re-raises
it as a 500, so the caller observes a 500, not the claimed 4xx. -/
theorem c1_missing_clinic_reports_500 :
    ∀ (env : FinEnv) (period : String), env.clinic_id = none →
      getFinancialAnalytics env period =
        Except.error ⟨500,
          "Error generating financial analytics: 400: User is not associated with a clinic"⟩ := by
  intro env period h
  unfold getFinancialAnalytics finInner
  rw [h]
  rfl

/-- Witness for `c1_missing_clinic_reports_500`. -/
theorem c1_missing_clinic_reports_500_witness :
    getFinancialAnalytics
        ⟨none, ⟨⟨2026, 10, 12⟩, 0, 0, 0⟩, 0, none, Except.ok [], Except.ok [],
         Except.ok [], Except.ok none, Except.ok [], Except.ok []⟩
        "last_month" =
      Except.error ⟨500,
        "Error generating financial analytics: 400: User is not associated with a clinic"⟩ :=
  c1_missing_clinic_reports_500
    ⟨none, ⟨⟨2026, 10, 12⟩, 0, 0, 0⟩, 0, none, Except.ok [], Except.ok [],
     Except.ok [], Except.ok none, Except.ok [], Except.ok []⟩
    "last_month" rfl

/-- C4 counterexample: a failure of the revenue-by-doctor query alone aborts
the whole financial response with a 500 — no sub-metric of the response is
reported — refuting the claim that every sub-metric is independently
fault-isolated. -/
theorem c4_counterexample :
    getFinancialAnalytics
        ⟨some 1, ⟨⟨2026, 10, 12⟩, 0, 0, 0⟩, 0, none,
         Except.error (PyExc.sqlErr "boom"), Except.ok [], Except.ok [],
         Except.ok none, Except.ok [], Except.ok []⟩ "last_month" =
      Except.error ⟨500, "Database error: boom"⟩ := by
  rfl

/-- C4 (amended): only the AR-aging and cost-per-procedure sub-metrics are
fault-isolated — a failure computing either is caught and replaced by zero
buckets / an empty list while every other sub-metric of the same response is
reported as computed — whereas a query failure in revenue-by-doctor,
revenue-by-service, the monthly trend, or the totals aborts the whole
response with a 500-equivalent error. -/
theorem c4_fault_isolation_only_aging_cpp :
    ∀ (env : FinEnv) (period : String) (c : Nat),
      env.clinic_id = some c → env.cached = none →
      ((∀ rd rs mo tot e1 cpp,
          env.qRevDoctor = Except.ok rd → env.qRevService = Except.ok rs →
          env.qMonthly = Except.ok mo → env.qTotals = Except.ok tot →
          env.qAging = Except.error e1 → env.qCpp = Except.ok cpp →
          getFinancialAnalytics env period = Except.ok
            ⟨period, (periodToDates env.now period).1,
             (periodToDates env.now period).2, procRevDoctor rd,
             procRevService rs, mo, (totOf tot).2,
             round2 ((totOf tot).2 / ((max (totOf tot).1 1 : Nat) : Rat)),
             (totOf tot).1, zeroBuckets, procCpp cpp, []⟩) ∧
       (∀ rd rs mo tot rows e2,
          env.qRevDoctor = Except.ok rd → env.qRevService = Except.ok rs →
          env.qMonthly = Except.ok mo → env.qTotals = Except.ok tot →
          env.qAging = Except.ok rows → env.qCpp = Except.error e2 →
          getFinancialAnalytics env period = Except.ok
            ⟨period, (periodToDates env.now period).1,
             (periodToDates env.now period).2, procRevDoctor rd,
             procRevService rs, mo, (totOf tot).2,
             round2 ((totOf tot).2 / ((max (totOf tot).1 1 : Nat) : Rat)),
             (totOf tot).1, rows.foldl (agingStep env.nowSec) zeroBuckets,
             [], []⟩) ∧
       (∀ m, env.qRevDoctor = Except.error (PyExc.sqlErr m) →
          getFinancialAnalytics env period =
            Except.error ⟨500, "Database error: " ++ m⟩) ∧
       (∀ rd m, env.qRevDoctor = Except.ok rd →
          env.qRevService = Except.error (PyExc.sqlErr m) →
          getFinancialAnalytics env period =
            Except.error ⟨500, "Database error: " ++ m⟩) ∧
       (∀ rd rs m, env.qRevDoctor = Except.ok rd →
          env.qRevService = Except.ok rs →
          env.qMonthly = Except.error (PyExc.sqlErr m) →
          getFinancialAnalytics env period =
            Except.error ⟨500, "Database error: " ++ m⟩) ∧
       (∀ rd rs mo m, env.qRevDoctor = Except.ok rd →
          env.qRevService = Except.ok rs → env.qMonthly = Except.ok mo →
          env.qTotals = Except.error (PyExc.sqlErr m) →
          getFinancialAnalytics env period =
            Except.error ⟨500, "Database error: " ++ m⟩)) := by
  intro env period c hcl hca
  refine ⟨?_, ?_, ?_, ?_, ?_, ?_⟩
  · intro rd rs mo tot e1 cpp h1 h2 h3 h4 h5 h6
    unfold getFinancialAnalytics finInner
    rw [hcl, hca, h1, h2, h3, h4, h5, h6]
    rfl
  · intro rd rs mo tot rows e2 h1 h2 h3 h4 h5 h6
    unfold getFinancialAnalytics finInner
    rw [hcl, hca, h1, h2, h3, h4, h5, h6]
    rfl
  · intro m h1
    unfold getFinancialAnalytics finInner
    rw [hcl, hca, h1]
    rfl
  · intro rd m h1 h2
    unfold getFinancialAnalytics finInner
    rw [hcl, hca, h1, h2]
    rfl
  · intro rd rs m h1 h2 h3
    unfold getFinancialAnalytics finInner
    rw [hcl, hca, h1, h2, h3]
    rfl
  · intro rd rs mo m h1 h2 h3 h4
    unfold getFinancialAnalytics finInner
    rw [hcl, hca, h1, h2, h3, h4]
    rfl

/-- Witness for `c4_fault_isolation_only_aging_cpp`: an aging-query failure
leaves the rest of the response intact with zeroed buckets. -/
theorem c4_fault_isolation_only_aging_cpp_witness :
    getFinancialAnalytics
        ⟨some 1, ⟨⟨2026, 10, 12⟩, 0, 0, 0⟩, 0, none, Except.ok [],
         Except.ok [], Except.ok [], Except.ok none,
         Except.error (PyExc.otherErr "relation payments does not exist"),
         Except.ok []⟩ "last_7_days" =
      Except.ok
        ⟨"last_7_days",
         (periodToDates ⟨⟨2026, 10, 12⟩, 0, 0, 0⟩ "last_7_days").1,
         (periodToDates ⟨⟨2026, 10, 12⟩, 0, 0, 0⟩ "last_7_days").2,
         [], [], [], 0, round2 (0 / ((max 0 1 : Nat) : Rat)), 0,
         zeroBuckets, [], []⟩ :=
  ((c4_fault_isolation_only_aging_cpp
      ⟨some 1, ⟨⟨2026, 10, 12⟩, 0, 0, 0⟩, 0, none, Except.ok [],
       Except.ok [], Except.ok [], Except.ok none,
       Except.error (PyExc.otherErr "relation payments does not exist"),
       Except.ok []⟩ "last_7_days" 1 rfl rfl).1
    [] [] [] none (PyExc.otherErr "relation payments does not exist") []
    rfl rfl rfl rfl rfl rfl)
